import Mathlib

/-!
Shallow embedding of `src/playsound.py` (the `playsound` library).

The repository defines one exception type (`PlaysoundException`), an abstract
base class `playsoundBase` with four abstract methods, and three platform
backends:

* `playsoundWin`  — drives the Windows MCI subsystem through textual commands
  submitted via `mciSendStringA` (the command-interface backend);
* `playsoundOSX`  — wraps an `AppKit.NSSound` object (the native-object
  backend);
* `playsoundNix`  — builds a GStreamer `playbin` pipeline (the pipeline
  backend).

Side effects are made explicit: the native collaborators (the MCI
command-submission primitive, the NSSound constructor, the GStreamer calls)
become environment records, Python exceptions become `Except` results, and
the mutable attributes of each backend instance become explicit state
records threaded through the operations.  The unbounded polling loop of
`playsoundWin._manage_block` is given fuel; exhausting the fuel models the
loop not having terminated within that many iterations.
-/

/-- Python exceptions that the embedded code can raise.  `typeError` also
covers the `TypeError` that CPython raises for `raise NotImplemented`
(raising a non-exception object) and for calling a non-callable. -/
inductive PyError where
  | playsoundException (msg : String)
  | ioError (msg : String)
  | notImplementedError (msg : String)
  | typeError (msg : String)
deriving DecidableEq

/-- Model of Python `needle.isPrefixOf`-style comparison on character lists:
`listPre n h` is true when `n` is an initial segment of `h`. -/
def listPre : List Char → List Char → Bool
  | [], _ => true
  | _ :: _, [] => false
  | a :: as, b :: bs => a == b && listPre as bs

/-- Model of Python substring search on character lists: `listHasSub n h`
is true when `n` occurs contiguously inside `h`. -/
def listHasSub (needle : List Char) : List Char → Bool
  | [] => needle.isEmpty
  | c :: t => listPre needle (c :: t) || listHasSub needle t

/-- Model of the Python expression `needle in hay` on strings. -/
def pyIn (needle hay : String) : Bool :=
  listHasSub needle.data hay.data

/-- Model of the Python expression `hay.startswith(needle)`. -/
def pyStartsWith (hay needle : String) : Bool :=
  listPre needle.data hay.data

theorem listPre_append_right (n a b : List Char) (h : listPre n a = true) :
    listPre n (a ++ b) = true := by
  induction n generalizing a with
  | nil => simp [listPre]
  | cons x xs ih =>
    cases a with
    | nil => simp [listPre] at h
    | cons c t =>
      simp only [listPre, Bool.and_eq_true] at h
      simp only [List.cons_append, listPre, Bool.and_eq_true]
      exact ⟨h.1, ih t h.2⟩

theorem listPre_self_append (n b : List Char) : listPre n (n ++ b) = true := by
  induction n with
  | nil => simp [listPre]
  | cons x xs ih => simp [listPre, ih]

theorem listHasSub_append_left (n a b : List Char) (h : listHasSub n a = true) :
    listHasSub n (a ++ b) = true := by
  induction a with
  | nil =>
    simp only [listHasSub, List.isEmpty_iff] at h
    subst h
    cases b with
    | nil => simp [listHasSub]
    | cons c t => simp [listHasSub, listPre]
  | cons c t ih =>
    simp only [listHasSub, Bool.or_eq_true] at h
    simp only [List.cons_append, listHasSub, Bool.or_eq_true]
    cases h with
    | inl hp => exact Or.inl (listPre_append_right _ _ _ hp)
    | inr hs => exact Or.inr (ih hs)

theorem listHasSub_middle (a n b : List Char) :
    listHasSub n (a ++ n ++ b) = true := by
  induction a with
  | nil =>
    cases n with
    | nil =>
      cases b with
      | nil => simp [listHasSub]
      | cons c t => simp [listHasSub, listPre]
    | cons x xs =>
      simp only [List.nil_append, listHasSub, Bool.or_eq_true]
      exact Or.inl (listPre_self_append _ _)
  | cons c t ih =>
    simp only [List.cons_append, listHasSub, Bool.or_eq_true]
    exact Or.inr ih

/-- Membership `pyIn n hay` holds whenever the characters of `hay` decompose as
`a ++ n.data ++ b`. -/
theorem pyIn_of_decomp (n hay : String) (a b : List Char)
    (h : hay.data = a ++ n.data ++ b) : pyIn n hay = true := by
  unfold pyIn
  rw [h]
  exact listHasSub_middle a n.data b

/-- A substring of the left part of a concatenation is a substring of the
whole. -/
theorem pyIn_append_left (n a b : String) (h : pyIn n a = true) :
    pyIn n (a ++ b) = true := by
  unfold pyIn at h ⊢
  rw [String.data_append]
  exact listHasSub_append_left _ _ _ h

/-!
## Command-interface backend (`playsoundWin`)

The native collaborator is the pair `mciSendStringA` / `mciGetErrorStringA`.
`mciSendStringA` is modelled by `WinEnv.submit`, which, given the index of
the submission (how many submissions this instance performed before, so the
stub can answer differently over time, as the real device does) and the
joined command string, returns the numeric error code and the contents the
call leaves in the result buffer.  `mciGetErrorStringA` is modelled by
`WinEnv.errString`.  Encoding with `getfilesystemencoding` followed by
`decode` is modelled as the identity on strings.
-/

structure WinEnv where
  submit : Nat → String → Nat × String
  errString : Nat → String

/-- The mutable attributes of a `playsoundWin` instance.  Python lets
`self.pause_audio = False` (inside `_manage_block`) shadow the bound method
`pause_audio` with an instance attribute; `pauseAudioAttr` records that
shadowing attribute when present (`none` means the class method is still
visible). -/
structure WinState where
  aliasName : String
  stop_sound : Bool
  pause_sound : Bool
  pauseAudioAttr : Option Bool
deriving DecidableEq

/-- Constructor `playsoundWin.__init__`: the alias is derived from the instance identity
`id(self)`, modelled as a number chosen by the runtime. -/
def playsoundWin.init (objId : Nat) : WinState :=
  { aliasName := "playsound_alias_" ++ toString objId
    stop_sound := false
    pause_sound := false
    pauseAudioAttr := none }

/-- Class attribute `playsoundWin.mcierr_duplicate_alias`. -/
def mcierr_duplicate_alias : String := "Error 289 for command"

/-- Method `playsoundWin.winCommand(*command)`: join the parts with spaces, submit,
and on a non-zero error code raise `PlaysoundException` with the error code,
the command text and the native error description embedded; on success
return the buffer contents together with the next submission index. -/
def winCommand (env : WinEnv) (ctr : Nat) (parts : List String) :
    Except PyError (String × Nat) :=
  let command := String.intercalate " " parts
  let r := env.submit ctr command
  if r.1 ≠ 0 then
    .error (.playsoundException
      ("\n    Error " ++ toString r.1 ++ " for command:\n"
        ++ command ++ "\n    " ++ env.errString r.1))
  else
    .ok (r.2, ctr + 1)

/-- Method `playsoundWin.close_alias`: try to close the alias, ignoring every
failure; one submission is consumed either way. -/
def close_alias (env : WinEnv) (ctr : Nat) (s : WinState) : Nat :=
  match winCommand env ctr ["close", s.aliasName] with
  | .ok _ => ctr + 1
  | .error _ => ctr + 1

/-- The `while True` loop of `playsoundWin._manage_block`: each iteration
sleeps 0.1s then queries `status <alias> mode`, breaking when the status
reads `"stopped"`.  The result on normal exit is the next submission index
paired with the number of sleeps performed; `none` means the loop had not
terminated after `fuel` iterations. -/
def manageBlockLoop (env : WinEnv) (al : String) :
    Nat → Nat → Nat → Option (Except PyError (Nat × Nat))
  | 0, _, _ => none
  | fuel + 1, ctr, sleeps =>
    match winCommand env ctr ["status", al, "mode"] with
    | .error e => some (.error e)
    | .ok (status, ctr1) =>
      if status = "stopped" then some (.ok (ctr1, sleeps + 1))
      else manageBlockLoop env al fuel ctr1 (sleeps + 1)

/-- Method `playsoundWin._manage_block`: sets `self.stop_sound = False` and
`self.pause_audio = False` (the latter shadowing the method with the value
`False`), then runs the polling loop. -/
def manage_block (env : WinEnv) (fuel ctr : Nat) (s : WinState) :
    WinState × Option (Except PyError (Nat × Nat)) :=
  ({ s with stop_sound := false, pauseAudioAttr := some false },
    manageBlockLoop env s.aliasName fuel ctr 0)

/-- The `alias` keyword argument of `playsoundWin.play`: `if alias:` is a
truthiness test, so an empty string does not rebind the alias. -/
def setAliasArg (s : WinState) : Option String → WinState
  | none => s
  | some a => if a = "" then s else { s with aliasName := a }

/-- The tail of `playsoundWin.play` after the `open` command: issue
`play <alias>` and, when `block` is true, run `_manage_block`.  On a
non-blocking success the pair carries the next submission index and zero
sleeps. -/
def playAfterOpen (env : WinEnv) (fuel ctr : Nat) (s : WinState)
    (block : Bool) : WinState × Option (Except PyError (Nat × Nat)) :=
  match winCommand env ctr ["play", s.aliasName] with
  | .error e => (s, some (.error e))
  | .ok (_, ctr1) =>
    if block then manage_block env fuel ctr1 s
    else (s, some (.ok (ctr1, 0)))

/-- Method `playsoundWin.play(sound, block=True, alias=None)`: optionally rebind
the alias, close any existing alias ignoring failures, issue
`open "<sound>" alias <alias>` swallowing only the duplicate-alias
`PlaysoundException` (the one whose text contains
`mcierr_duplicate_alias`), issue `play <alias>`, and block if requested. -/
def playsoundWin.play (env : WinEnv) (fuel ctr : Nat) (s : WinState)
    (sound : String) (aliasArg : Option String) (block : Bool) :
    WinState × Option (Except PyError (Nat × Nat)) :=
  let s0 := setAliasArg s aliasArg
  let ctr1 := close_alias env ctr s0
  match winCommand env ctr1 ["open \"" ++ sound ++ "\" alias", s0.aliasName] with
  | .error (.playsoundException msg) =>
    if pyIn mcierr_duplicate_alias msg then
      playAfterOpen env fuel (ctr1 + 1) s0 block
    else (s0, some (.error (.playsoundException msg)))
  | .error e => (s0, some (.error e))
  | .ok (_, ctr2) => playAfterOpen env fuel ctr2 s0 block

/-- Method `playsoundWin.stop`: set `self.stop_sound = True`, then
`stop_audio()`, i.e. `winCommand` on the stop command, which raises if the
submission returns a non-zero code. -/
def playsoundWin.stop (env : WinEnv) (ctr : Nat) (s : WinState) :
    WinState × Except PyError Nat :=
  let s1 := { s with stop_sound := true }
  match winCommand env ctr ["stop", s1.aliasName] with
  | .error e => (s1, .error e)
  | .ok (_, ctr1) => (s1, .ok ctr1)

/-- Method `playsoundWin.pause`: set `self.pause_sound = True`, then call
`self.pause_audio()`.  When `_manage_block` has rebound `pause_audio` to
`False`, that call is `False()` and raises `TypeError`; otherwise it is the
class method, i.e. `winCommand` on the pause command. -/
def playsoundWin.pause (env : WinEnv) (ctr : Nat) (s : WinState) :
    WinState × Except PyError Nat :=
  let s1 := { s with pause_sound := true }
  match s1.pauseAudioAttr with
  | some _ => (s1, .error (.typeError "bool object is not callable"))
  | none =>
    match winCommand env ctr ["pause", s1.aliasName] with
    | .error e => (s1, .error e)
    | .ok (_, ctr1) => (s1, .ok ctr1)

/-- Method `playsoundWin.resume(block=True)`: set `self.pause_sound = False`; if
`get_status()` reads `"paused"`, issue `resume <alias>` and, when `block`,
run `_manage_block`; otherwise return normally. -/
def playsoundWin.resume (env : WinEnv) (fuel ctr : Nat) (s : WinState)
    (block : Bool) : WinState × Option (Except PyError (Nat × Nat)) :=
  let s1 := { s with pause_sound := false }
  match winCommand env ctr ["status", s1.aliasName, "mode"] with
  | .error e => (s1, some (.error e))
  | .ok (status, ctr1) =>
    if status = "paused" then
      match winCommand env ctr1 ["resume", s1.aliasName] with
      | .error e => (s1, some (.error e))
      | .ok (_, ctr2) =>
        if block then manage_block env fuel ctr2 s1
        else (s1, some (.ok (ctr2, 0)))
    else (s1, some (.ok (ctr1, 0)))

/-!
## Native-object backend (`playsoundOSX`)

The native collaborators `NSURL.URLWithString_` plus
`NSSound.alloc().initWithContentsOfURL_byReference_` are modelled by
`OSXEnv.makeSound`, which either yields a sound object (carrying the
duration it reports) or fails (the Python code sees a falsy result).
`os.getcwd()` is `OSXEnv.getcwd`.
-/

structure NSSoundObj where
  duration : Nat
deriving DecidableEq

structure OSXEnv where
  getcwd : String
  makeSound : String → Option NSSoundObj

/-- The mutable attributes of a `playsoundOSX` instance set by
`__init__`. -/
structure OSXState where
  nssound : Option NSSoundObj
  stop_sound : Bool
  pause_sound : Bool
  is_playing : Bool
deriving DecidableEq

/-- Constructor `playsoundOSX.__init__`. -/
def playsoundOSX.init : OSXState :=
  { nssound := none, stop_sound := false, pause_sound := false
    is_playing := false }

/-- The URL normalization performed at the top of `playsoundOSX.play`:
if the sound has no scheme separator, prepend the current working
directory (when the path is relative) and the `file://` marker. -/
def osxNormalize (cwd sound : String) : String :=
  if pyIn "://" sound then sound
  else if pyStartsWith sound "/" then "file://" ++ sound
  else "file://" ++ (cwd ++ "/" ++ sound)

/-- Method `playsoundOSX.play(sound, block=True)`: normalize the URL, construct the
native sound object (raising `IOError` when construction fails), mark the
instance playing, invoke the native play, and when `block` sleep for the
duration the object reports.  The result carries the URL handed to the
native constructor and, on success, the new state and the total sleep
performed. -/
def playsoundOSX.play (env : OSXEnv) (s : OSXState) (sound : String)
    (block : Bool) : String × Except PyError (OSXState × Nat) :=
  let url := osxNormalize env.getcwd sound
  match env.makeSound url with
  | none => (url, .error (.ioError ("Unable to load sound named: " ++ url)))
  | some snd =>
    (url, .ok ({ s with nssound := some snd, is_playing := true },
      if block then snd.duration else 0))

/-- Method `playsoundOSX.stop`: set `self.stop_sound = True`; invoke the native
stop only when a sound object exists and `is_playing` is set, else pass.
The Boolean result records whether the native stop was invoked; the method
itself never raises. -/
def playsoundOSX.stop (s : OSXState) : OSXState × Except PyError Bool :=
  let s1 := { s with stop_sound := true }
  if s1.nssound.isSome && s1.is_playing then (s1, .ok true)
  else (s1, .ok false)

/-!
## Pipeline backend (`playsoundNix`)

The GStreamer collaborators are modelled by `NixEnv`: the result of
`playbin.set_state(Gst.State.PLAYING)`, the Python `repr` of that result,
`pathname2url` from `urllib` and `os.path.abspath`.  `playsoundNix.play`
returns, besides its `Except` outcome, the trace of native pipeline calls
it performed, in order.
-/

/-- Enumeration `Gst.StateChangeReturn`. -/
inductive StateChangeReturn where
  | FAILURE
  | SUCCESS
  | ASYNC
  | NO_PREROLL
deriving DecidableEq

/-- The native pipeline operations `playsoundNix.play` can invoke. -/
inductive NixCall where
  | gstInit
  | makeElement (factory nm : String)
  | setUri (uri : String)
  | setStatePlaying
  | getBus
  | busPollEOS
  | setStateNull
deriving DecidableEq

structure NixEnv where
  setStateResult : StateChangeReturn
  reprSCR : StateChangeReturn → String
  pathname2url : String → String
  abspath : String → String

/-- The URI assigned to `playbin.props.uri`: the sound itself when it
already starts with `http://` or `https://`, otherwise the escaped
absolute path behind a `file://` marker. -/
def nixUri (env : NixEnv) (sound : String) : String :=
  if pyStartsWith sound "http://" || pyStartsWith sound "https://" then sound
  else "file://" ++ env.pathname2url (env.abspath sound)

/-- The native calls `playsoundNix.play` has performed by the time it
checks the result of `set_state(Gst.State.PLAYING)`. -/
def nixCallsBeforeCheck (env : NixEnv) (sound : String) : List NixCall :=
  [NixCall.gstInit, NixCall.makeElement "playbin" "playbin",
    NixCall.setUri (nixUri env sound), NixCall.setStatePlaying]

/-- Method `playsoundNix.play(sound, block=True)`: reject `block=False` with
`NotImplementedError` before any native call; otherwise initialize
GStreamer, build the playbin, set its URI, request `PLAYING`, raise
`PlaysoundException` when the result is not `ASYNC`, else poll the bus for
EOS and release the pipeline. -/
def playsoundNix.play (env : NixEnv) (sound : String) (block : Bool) :
    Except PyError Unit × List NixCall :=
  if !block then
    (.error (.notImplementedError
      "block=False cannot be used on this platform yet"), [])
  else if env.setStateResult ≠ StateChangeReturn.ASYNC then
    (.error (.playsoundException
      ("playbin.set_state returned " ++ env.reprSCR env.setStateResult)),
      nixCallsBeforeCheck env sound)
  else
    (.ok (), nixCallsBeforeCheck env sound
      ++ [NixCall.getBus, NixCall.busPollEOS, NixCall.setStateNull])

/-- Method `playsoundNix.stop`: the body is `raise NotImplemented`; in Python 3
raising the `NotImplemented` singleton (which is not an exception) itself
raises `TypeError: exceptions must derive from BaseException`. -/
def playsoundNix.stop : Except PyError Unit :=
  .error (.typeError "exceptions must derive from BaseException")

/-!
## Abstract base class and module-level backend selection

`playsoundBase` declares `play`, `stop`, `pause` and `resume` as
`@abstractmethod`.  The Python `ABCMeta` machinery refuses to instantiate a subclass
that leaves any abstract method unoverridden, raising `TypeError` at the
constructor call.  The module tail picks the backend class from
`platform.system()`; an unrecognized value leaves the name `playsound`
undefined.
-/

inductive BackendClass where
  | win
  | osx
  | nix
deriving DecidableEq

/-- The methods `playsoundBase` declares abstract. -/
def playsoundBase.abstractMethods : List String :=
  ["play", "stop", "pause", "resume"]

/-- The methods of `playsoundBase` each backend class overrides
(`playsoundNix` defines only `play` and `stop`). -/
def overriddenMethods : BackendClass → List String
  | .win => ["play", "stop", "pause", "resume"]
  | .osx => ["play", "stop", "pause", "resume"]
  | .nix => ["play", "stop"]

/-- The abstract methods a backend class leaves unoverridden. -/
def remainingAbstractMethods (c : BackendClass) : List String :=
  playsoundBase.abstractMethods.filter
    (fun m => !((overriddenMethods c).contains m))

/-- Modelled Python `ABCMeta` semantics: calling the constructor of a class
that still has abstract methods raises `TypeError`; otherwise an instance
of the class is produced. -/
def pyInstantiate (c : BackendClass) : Except PyError BackendClass :=
  if remainingAbstractMethods c = [] then .ok c
  else
    .error (.typeError
      ("Cannot instantiate abstract class with abstract methods "
        ++ String.intercalate ", " (remainingAbstractMethods c)))

/-- The module tail: `playsound = playsoundWin | playsoundOSX |
playsoundNix` depending on `platform.system()`; any other value leaves
`playsound` unbound. -/
def selectBackend : String → Option BackendClass
  | "Windows" => some .win
  | "Darwin" => some .osx
  | "Linux" => some .nix
  | _ => none

/-!
## Shared lemmas about `winCommand`
-/

/-- A submission returning a non-zero code makes `winCommand` raise
`PlaysoundException` with the documented message. -/
theorem winCommand_error (env : WinEnv) (ctr : Nat) (parts : List String)
    (h : (env.submit ctr (String.intercalate " " parts)).1 ≠ 0) :
    winCommand env ctr parts
      = .error (.playsoundException
          ("\n    Error "
            ++ toString (env.submit ctr (String.intercalate " " parts)).1
            ++ " for command:\n" ++ String.intercalate " " parts ++ "\n    "
            ++ env.errString
                (env.submit ctr (String.intercalate " " parts)).1)) := by
  simp [winCommand, h]

/-- A submission returning code zero makes `winCommand` return the buffer
contents and advance the submission index. -/
theorem winCommand_ok (env : WinEnv) (ctr : Nat) (parts : List String)
    (h : (env.submit ctr (String.intercalate " " parts)).1 = 0) :
    winCommand env ctr parts
      = .ok ((env.submit ctr (String.intercalate " " parts)).2, ctr + 1) := by
  simp [winCommand, h]

/-!
## Claims
-/

/-- C1 counterexample: calling `stop()` on the Pipeline backend
(`playsoundNix`) raises unconditionally — its body is
`raise NotImplemented`, which in Python 3 raises `TypeError` — so `stop()`
on a freshly constructed instance is not a no-op for every backend. -/
theorem nix_stop_always_raises :
    playsoundNix.stop
      = .error (.typeError "exceptions must derive from BaseException") :=
  rfl

/-- C1 amended: on a freshly constructed instance, `stop()` is a no-op
that cannot raise only for the Native-Object backend; the Pipeline
backend always raises from `stop()`, and the Command-Interface backend
issues from `stop()` a native `stop <alias>` command and raises
`PlaysoundException` whenever that submission returns a non-zero code (as
it does when the alias was never opened). -/
theorem stop_before_play_amended (env : WinEnv) (ctr objId : Nat)
    (h : (env.submit ctr (String.intercalate " "
        ["stop", (playsoundWin.init objId).aliasName])).1 ≠ 0) :
    (∃ msg, (playsoundWin.stop env ctr (playsoundWin.init objId)).2
        = .error (.playsoundException msg))
    ∧ (playsoundWin.stop env ctr (playsoundWin.init objId)).1.stop_sound
        = true
    ∧ (playsoundOSX.stop playsoundOSX.init).2 = .ok false
    ∧ playsoundNix.stop
        = .error (.typeError "exceptions must derive from BaseException") := by
  have hw := winCommand_error env ctr
    ["stop", (playsoundWin.init objId).aliasName] h
  refine ⟨⟨"\n    Error "
      ++ toString (env.submit ctr (String.intercalate " "
          ["stop", (playsoundWin.init objId).aliasName])).1
      ++ " for command:\n"
      ++ String.intercalate " " ["stop", (playsoundWin.init objId).aliasName]
      ++ "\n    "
      ++ env.errString (env.submit ctr (String.intercalate " "
          ["stop", (playsoundWin.init objId).aliasName])).1, ?_⟩, ?_, rfl, rfl⟩
  · simp [playsoundWin.stop, hw]
  · simp [playsoundWin.stop, hw]

/-- C1 witness. -/
theorem stop_before_play_amended_witness :
    (({ submit := fun _ _ => (263, ""), errString := fun _ => "e" }
        : WinEnv).submit 0 (String.intercalate " "
        ["stop", (playsoundWin.init 0).aliasName])).1 ≠ 0
    ∧ ((∃ msg, (playsoundWin.stop
          { submit := fun _ _ => (263, ""), errString := fun _ => "e" } 0
          (playsoundWin.init 0)).2 = .error (.playsoundException msg))
      ∧ (playsoundWin.stop
          { submit := fun _ _ => (263, ""), errString := fun _ => "e" } 0
          (playsoundWin.init 0)).1.stop_sound = true
      ∧ (playsoundOSX.stop playsoundOSX.init).2 = .ok false
      ∧ playsoundNix.stop
          = .error (.typeError
              "exceptions must derive from BaseException")) :=
  ⟨by decide, stop_before_play_amended _ 0 0 (by decide)⟩

/-- C4: for a sound reference with no scheme separator and not starting
with a slash, the Native-Object backend hands the native sound-object
constructor exactly the URL
`file:// + current working directory + / + sound`. -/
theorem osx_relative_url (env : OSXEnv) (s : OSXState) (sound : String)
    (block : Bool) (h1 : pyIn "://" sound = false)
    (h2 : pyStartsWith sound "/" = false) :
    (playsoundOSX.play env s sound block).1
      = "file://" ++ env.getcwd ++ "/" ++ sound := by
  have hn : osxNormalize env.getcwd sound
      = "file://" ++ env.getcwd ++ "/" ++ sound := by
    simp [osxNormalize, h1, h2, String.append_assoc]
  simp only [playsoundOSX.play, hn]
  cases hm : env.makeSound ("file://" ++ env.getcwd ++ "/" ++ sound) <;>
    simp [hm]

/-- C4 witness. -/
theorem osx_relative_url_witness :
    pyIn "://" "song.mp3" = false
    ∧ pyStartsWith "song.mp3" "/" = false
    ∧ (playsoundOSX.play
        { getcwd := "/home/user", makeSound := fun _ => none }
        playsoundOSX.init "song.mp3" true).1
      = "file://" ++ "/home/user" ++ "/" ++ "song.mp3" :=
  ⟨by decide, by decide,
    osx_relative_url { getcwd := "/home/user", makeSound := fun _ => none }
      playsoundOSX.init "song.mp3" true (by decide) (by decide)⟩

/-- C5: the Pipeline backend method `play` with `block=False` raises
`NotImplementedError` and its trace of native pipeline calls is empty —
nothing was initialized, constructed, state-changed or polled. -/
theorem nix_nonblock_unimplemented (env : NixEnv) (sound : String) :
    playsoundNix.play env sound false
      = (.error (.notImplementedError
          "block=False cannot be used on this platform yet"), []) :=
  rfl

/-- C6: when `set_state(PLAYING)` returns anything but `ASYNC`, the
blocking `play` of the Pipeline backend raises `PlaysoundException` carrying the
repr of the unexpected result, and the bus poll never appears in the trace
of native calls performed. -/
theorem nix_set_state_failure (env : NixEnv) (sound : String)
    (h : env.setStateResult ≠ StateChangeReturn.ASYNC) :
    playsoundNix.play env sound true
      = (.error (.playsoundException
          ("playbin.set_state returned " ++ env.reprSCR env.setStateResult)),
        nixCallsBeforeCheck env sound)
    ∧ NixCall.busPollEOS ∉ nixCallsBeforeCheck env sound := by
  constructor
  · simp [playsoundNix.play, h]
  · simp [nixCallsBeforeCheck]

/-- C6 witness. -/
theorem nix_set_state_failure_witness :
    ({ setStateResult := StateChangeReturn.FAILURE,
        reprSCR := fun _ => "failure-result", pathname2url := fun p => p,
        abspath := fun p => p } : NixEnv).setStateResult
      ≠ StateChangeReturn.ASYNC
    ∧ (playsoundNix.play
        { setStateResult := StateChangeReturn.FAILURE,
          reprSCR := fun _ => "failure-result", pathname2url := fun p => p,
          abspath := fun p => p } "song.mp3" true
      = (.error (.playsoundException
          ("playbin.set_state returned "
            ++ ({ setStateResult := StateChangeReturn.FAILURE,
                  reprSCR := fun _ => "failure-result",
                  pathname2url := fun p => p,
                  abspath := fun p => p } : NixEnv).reprSCR
                StateChangeReturn.FAILURE)),
        nixCallsBeforeCheck
          { setStateResult := StateChangeReturn.FAILURE,
            reprSCR := fun _ => "failure-result", pathname2url := fun p => p,
            abspath := fun p => p } "song.mp3")
      ∧ NixCall.busPollEOS ∉ nixCallsBeforeCheck
          { setStateResult := StateChangeReturn.FAILURE,
            reprSCR := fun _ => "failure-result", pathname2url := fun p => p,
            abspath := fun p => p } "song.mp3") :=
  ⟨by decide,
    nix_set_state_failure
      { setStateResult := StateChangeReturn.FAILURE,
        reprSCR := fun _ => "failure-result", pathname2url := fun p => p,
        abspath := fun p => p } "song.mp3" (by decide)⟩

/-- C10: `playsoundNix` overrides only `play` and `stop` of the four
abstract methods of `playsoundBase`, so the class selected for the Linux
platform still has the abstract methods `pause` and `resume` and every
attempt to construct an instance raises `TypeError`. -/
theorem nix_not_instantiable :
    selectBackend "Linux" = some BackendClass.nix
    ∧ remainingAbstractMethods BackendClass.nix = ["pause", "resume"]
    ∧ pyInstantiate BackendClass.nix
        = .error (.typeError
            ("Cannot instantiate abstract class with abstract methods "
              ++ "pause, resume")) :=
  ⟨rfl, rfl, rfl⟩

/-- Unfolding step for one iteration of the polling loop. -/
theorem manageBlockLoop_succ (env : WinEnv) (al : String)
    (fuel ctr sleeps : Nat) :
    manageBlockLoop env al (fuel + 1) ctr sleeps
      = match winCommand env ctr ["status", al, "mode"] with
        | .error e => some (.error e)
        | .ok (status, ctr1) =>
          if status = "stopped" then some (.ok (ctr1, sleeps + 1))
          else manageBlockLoop env al fuel ctr1 (sleeps + 1) := rfl

/-- Lemma: `close_alias` swallows every outcome and just advances the submission
index. -/
theorem close_alias_eq (env : WinEnv) (ctr : Nat) (s : WinState) :
    close_alias env ctr s = ctr + 1 := by
  unfold close_alias
  cases winCommand env ctr ["close", s.aliasName] <;> rfl

/-- C3: every command submission returning a non-zero error code makes
`winCommand` raise `PlaysoundException` whose message contains the numeric
error code, the literal command text, and the native error description.
(The duplicate-alias code 289 also raises here; `play` swallows that one
case afterwards, so every non-duplicate-alias failure surfaces to the
caller exactly as raised.) -/
theorem winCommand_error_contract (env : WinEnv) (ctr : Nat)
    (parts : List String)
    (h : (env.submit ctr (String.intercalate " " parts)).1 ≠ 0) :
    ∃ msg, winCommand env ctr parts = .error (.playsoundException msg)
      ∧ pyIn (toString (env.submit ctr
          (String.intercalate " " parts)).1) msg = true
      ∧ pyIn (String.intercalate " " parts) msg = true
      ∧ pyIn (env.errString (env.submit ctr
          (String.intercalate " " parts)).1) msg = true := by
  refine ⟨_, winCommand_error env ctr parts h, ?_, ?_, ?_⟩
  · apply pyIn_of_decomp _ _ ("\n    Error ".data)
      ((" for command:\n").data
        ++ (String.intercalate " " parts).data ++ ("\n    ").data
        ++ (env.errString (env.submit ctr
            (String.intercalate " " parts)).1).data)
    simp [String.data_append, List.append_assoc]
  · apply pyIn_of_decomp _ _
      (("\n    Error ".data
        ++ (toString (env.submit ctr
            (String.intercalate " " parts)).1).data
        ++ (" for command:\n").data))
      (("\n    ").data
        ++ (env.errString (env.submit ctr
            (String.intercalate " " parts)).1).data)
    simp [String.data_append, List.append_assoc]
  · apply pyIn_of_decomp _ _
      (("\n    Error ".data
        ++ (toString (env.submit ctr
            (String.intercalate " " parts)).1).data
        ++ (" for command:\n").data
        ++ (String.intercalate " " parts).data ++ ("\n    ").data)) []
    simp [String.data_append, List.append_assoc]

/-- Stub environment for the C3 witness: every submission fails with error
code 263. -/
def envC3 : WinEnv :=
  { submit := fun _ _ => (263, "buf")
    errString := fun _ => "Invalid device name" }

/-- C3 witness. -/
theorem winCommand_error_contract_witness :
    (envC3.submit 0 (String.intercalate " " ["stop", "a"])).1 ≠ 0
    ∧ (∃ msg, winCommand envC3 0 ["stop", "a"]
        = .error (.playsoundException msg)
      ∧ pyIn (toString (envC3.submit 0
          (String.intercalate " " ["stop", "a"])).1) msg = true
      ∧ pyIn (String.intercalate " " ["stop", "a"]) msg = true
      ∧ pyIn (envC3.errString (envC3.submit 0
          (String.intercalate " " ["stop", "a"])).1) msg = true) :=
  ⟨by decide, winCommand_error_contract envC3 0 ["stop", "a"] (by decide)⟩

/-- C2: when the `open` submission (the second submission `play` makes,
after the best-effort `close`) fails with the duplicate-alias error code
289 and every other submission succeeds — the status poll reporting
`"stopped"` — `play` swallows the duplicate-alias error and returns
normally. -/
theorem duplicate_alias_tolerated (env : WinEnv) (s : WinState)
    (sound : String) (k : Nat)
    (_h0 : ∀ c, (env.submit 0 c).1 = 0)
    (h1 : ∀ c, (env.submit 1 c).1 = 289)
    (h2 : ∀ c, (env.submit 2 c).1 = 0)
    (h3 : ∀ c, env.submit 3 c = (0, "stopped")) :
    playsoundWin.play env (k + 1) 0 s sound none true
      = ({ s with stop_sound := false, pauseAudioAttr := some false },
        some (.ok (4, 1))) := by
  have e1 : winCommand env 1 ["open \"" ++ sound ++ "\" alias", s.aliasName]
      = .error (.playsoundException
          ("\n    Error " ++ toString 289 ++ " for command:\n"
            ++ String.intercalate " "
                ["open \"" ++ sound ++ "\" alias", s.aliasName]
            ++ "\n    " ++ env.errString 289)) := by
    simp [winCommand, h1]
  have hdup : pyIn mcierr_duplicate_alias
      ("\n    Error " ++ toString 289 ++ " for command:\n"
        ++ String.intercalate " "
            ["open \"" ++ sound ++ "\" alias", s.aliasName]
        ++ "\n    " ++ env.errString 289) = true :=
    pyIn_append_left _ _ _ (pyIn_append_left _ _ _
      (pyIn_append_left _ _ _ (by decide)))
  have e2 := winCommand_ok env 2 ["play", s.aliasName] (h2 _)
  have e3 : winCommand env 3 ["status", s.aliasName, "mode"]
      = .ok ("stopped", 4) := by
    simp [winCommand, h3]
  have l : manageBlockLoop env s.aliasName (k + 1) 3 0
      = some (.ok (4, 1)) := by
    rw [manageBlockLoop_succ, e3]
    simp
  simp [playsoundWin.play, setAliasArg, close_alias_eq, e1, hdup,
    playAfterOpen, e2, manage_block, l]

/-- Stub environment for the C2 witness: submission 1 (the `open`) fails
with the duplicate-alias code 289, submission 3 (the status poll) reports
`"stopped"`, everything else succeeds. -/
def envC2 : WinEnv :=
  { submit := fun i _ =>
      if i = 1 then (289, "") else if i = 3 then (0, "stopped") else (0, "")
    errString := fun _ => "dup" }

/-- C2 witness. -/
theorem duplicate_alias_tolerated_witness :
    playsoundWin.play envC2 1 0 (playsoundWin.init 7) "song.mp3" none true
      = ({ playsoundWin.init 7 with
            stop_sound := false, pauseAudioAttr := some false },
        some (.ok (4, 1))) :=
  duplicate_alias_tolerated envC2 (playsoundWin.init 7) "song.mp3" 0
    (fun _ => rfl) (fun _ => rfl) (fun _ => rfl) (fun _ => rfl)

/-- C7 counterexample: a state whose stop flag is already set, polled by a
device that forever reports `"playing"`, keeps the blocking loop running
(here: still unfinished after 5 iterations) — so the exit condition of the loop
does not consult the stop flag set by `stop()`. -/
theorem stop_flag_not_consulted_counterexample :
    (manage_block
      { submit := fun _ _ => (0, "playing"), errString := fun _ => "" } 5 0
      { aliasName := "a", stop_sound := true, pause_sound := false,
        pauseAudioAttr := none }).2 = none := rfl

/-- C7 amended: `stop()` does set the internal flag `stop_sound`, but the
blocking poll loop never consults it: `_manage_block` resets the flag on
entry and its outcome is `manageBlockLoop`, a function of the environment,
fuel, submission index and alias alone — the same whatever value
`stop_sound` held. -/
theorem stop_flag_set_but_not_consulted (env : WinEnv) (fuel ctr : Nat)
    (s : WinState) (b : Bool) :
    (playsoundWin.stop env ctr s).1.stop_sound = true
    ∧ manage_block env fuel ctr { s with stop_sound := b }
        = ({ s with stop_sound := false, pauseAudioAttr := some false },
          manageBlockLoop env s.aliasName fuel ctr 0) := by
  constructor
  · cases h : winCommand env ctr ["stop", s.aliasName] <;>
      simp [playsoundWin.stop, h]
  · simp [manage_block]

/-- Stub environment for C8: submissions 0-2 (close, open, play) succeed,
the status polls report `"playing"` twice (submissions 3 and 4) and
`"stopped"` from then on. -/
def envC8 : WinEnv :=
  { submit := fun i _ =>
      if i ≤ 2 then (0, "")
      else if i ≤ 4 then (0, "playing") else (0, "stopped")
    errString := fun _ => "" }

/-- C8 counterexample: with the status reading `"playing"` for the first
two polls and `"stopped"` thereafter, a blocking `play` returns normally
only after THREE fixed-interval sleeps, not two — the loop sleeps once
before every poll, including the poll that observes `"stopped"`. -/
theorem blocking_play_two_polls_counterexample :
    playsoundWin.play envC8 10 0 (playsoundWin.init 1) "song.mp3" none true
      = ({ playsoundWin.init 1 with
            stop_sound := false, pauseAudioAttr := some false },
        some (.ok (6, 3)))
    ∧ (3 : Nat) ≠ 2 :=
  ⟨rfl, by decide⟩

/-- C8 amended: when the status query reports `"playing"` for the first two
polls and `"stopped"` thereafter, a blocking `play()` returns successfully
after exactly three poll intervals (three fixed-interval sleeps), because
the loop sleeps before each status poll including the final one. -/
theorem blocking_play_three_polls (env : WinEnv) (s : WinState)
    (sound : String) (k : Nat)
    (_h0 : ∀ c, (env.submit 0 c).1 = 0)
    (h1 : ∀ c, (env.submit 1 c).1 = 0)
    (h2 : ∀ c, (env.submit 2 c).1 = 0)
    (h3 : ∀ c, env.submit 3 c = (0, "playing"))
    (h4 : ∀ c, env.submit 4 c = (0, "playing"))
    (h5 : ∀ c, env.submit 5 c = (0, "stopped")) :
    playsoundWin.play env (k + 3) 0 s sound none true
      = ({ s with stop_sound := false, pauseAudioAttr := some false },
        some (.ok (6, 3))) := by
  have e1 := winCommand_ok env 1
    ["open \"" ++ sound ++ "\" alias", s.aliasName] (h1 _)
  have e2 := winCommand_ok env 2 ["play", s.aliasName] (h2 _)
  have e3 : winCommand env 3 ["status", s.aliasName, "mode"]
      = .ok ("playing", 4) := by simp [winCommand, h3]
  have e4 : winCommand env 4 ["status", s.aliasName, "mode"]
      = .ok ("playing", 5) := by simp [winCommand, h4]
  have e5 : winCommand env 5 ["status", s.aliasName, "mode"]
      = .ok ("stopped", 6) := by simp [winCommand, h5]
  have s1 : manageBlockLoop env s.aliasName (k + 3) 3 0
      = manageBlockLoop env s.aliasName (k + 2) 4 1 := by
    rw [show k + 3 = (k + 2) + 1 from rfl, manageBlockLoop_succ, e3]
    simp
  have s2 : manageBlockLoop env s.aliasName (k + 2) 4 1
      = manageBlockLoop env s.aliasName (k + 1) 5 2 := by
    rw [show k + 2 = (k + 1) + 1 from rfl, manageBlockLoop_succ, e4]
    simp
  have s3 : manageBlockLoop env s.aliasName (k + 1) 5 2
      = some (.ok (6, 3)) := by
    rw [manageBlockLoop_succ, e5]
    simp
  have l : manageBlockLoop env s.aliasName (k + 3) 3 0
      = some (.ok (6, 3)) := by rw [s1, s2, s3]
  simp [playsoundWin.play, setAliasArg, close_alias_eq, e1, playAfterOpen,
    e2, manage_block, l]

/-- C8 witness. -/
theorem blocking_play_three_polls_witness :
    playsoundWin.play envC8 3 0 (playsoundWin.init 1) "song.mp3" none true
      = ({ playsoundWin.init 1 with
            stop_sound := false, pauseAudioAttr := some false },
        some (.ok (6, 3))) :=
  blocking_play_three_polls envC8 (playsoundWin.init 1) "song.mp3" 0
    (fun _ => rfl) (fun _ => rfl) (fun _ => rfl)
    (fun _ => rfl) (fun _ => rfl) (fun _ => rfl)

/-- Pause raises when the `pause_audio` attribute has been rebound to the
non-callable `False`. -/
theorem pause_raises_of_rebound (env2 : WinEnv) (ctr2 : Nat) (s' : WinState)
    (h : s'.pauseAudioAttr = some false) :
    playsoundWin.pause env2 ctr2 s'
      = ({ s' with pause_sound := true },
        .error (.typeError "bool object is not callable")) := by
  simp [playsoundWin.pause, h]

/-- A blocking `play` that produced a `some (.ok _)` outcome went through
`_manage_block`, whose entry rebinds `pause_audio` to `False`. -/
theorem play_block_ok_rebinds (env : WinEnv) (fuel ctr c n : Nat)
    (s s' : WinState) (sound : String) (aliasArg : Option String)
    (h : playsoundWin.play env fuel ctr s sound aliasArg true
      = (s', some (.ok (c, n)))) :
    s'.pauseAudioAttr = some false := by
  simp only [playsoundWin.play, playAfterOpen, manage_block] at h
  split at h
  · split at h
    · split at h
      · simp at h
      · rw [Prod.mk.injEq] at h
        rw [← h.1]
        simp
    · simp at h
  · simp at h
  · split at h
    · simp at h
    · rw [Prod.mk.injEq] at h
      rw [← h.1]
      simp

/-- A blocking `resume` that observed status `"paused"` and produced a
`some (.ok _)` outcome went through `_manage_block`, whose entry rebinds
`pause_audio` to `False`. -/
theorem resume_block_ok_paused_rebinds (env : WinEnv) (fuel ctr c n : Nat)
    (s s' : WinState)
    (hp : env.submit ctr
        (String.intercalate " " ["status", s.aliasName, "mode"])
      = (0, "paused"))
    (h : playsoundWin.resume env fuel ctr s true
      = (s', some (.ok (c, n)))) :
    s'.pauseAudioAttr = some false := by
  have e0 : winCommand env ctr ["status", s.aliasName, "mode"]
      = .ok ("paused", ctr + 1) := by simp [winCommand, hp]
  simp only [playsoundWin.resume, manage_block, e0, reduceIte] at h
  split at h
  · simp at h
  · rw [Prod.mk.injEq] at h
    rw [← h.1]

/-- C9 counterexample: a blocking `resume()` on a fresh instance whose
status poll reads `"stopped"` (not `"paused"`) completes normally without
ever entering `_manage_block`, so `pause_audio` is NOT rebound and a
subsequent `pause()` does not raise `TypeError` — refuting the claim for
`resume()`. -/
theorem pause_audio_rebound_counterexample :
    playsoundWin.resume
      { submit := fun _ _ => (0, "stopped"), errString := fun _ => "" }
      5 0 (playsoundWin.init 2) true
      = (playsoundWin.init 2, some (.ok (1, 0)))
    ∧ (playsoundWin.init 2).pauseAudioAttr = none
    ∧ (playsoundWin.pause
        { submit := fun _ _ => (0, "stopped"), errString := fun _ => "" }
        1 (playsoundWin.init 2)).2 = .ok 2 :=
  ⟨rfl, rfl, rfl⟩

/-- C9 amended: after a blocking `play()` completes normally — or after a
blocking `resume()` that observed status `"paused"` completes normally —
the instance attribute `pause_audio` has been rebound from a method to the
value `False`, so every subsequent `pause()` on that instance raises
`TypeError`.  (A blocking `resume()` that observes a status other than
`"paused"` returns without entering the loop and does not rebind.) -/
theorem pause_audio_rebound_amended (env env2 : WinEnv)
    (fuel ctr ctr2 c n : Nat) (s s' : WinState) (sound : String) :
    (playsoundWin.play env fuel ctr s sound none true
        = (s', some (.ok (c, n)))
      → s'.pauseAudioAttr = some false
        ∧ playsoundWin.pause env2 ctr2 s'
            = ({ s' with pause_sound := true },
              .error (.typeError "bool object is not callable")))
    ∧ (env.submit ctr
          (String.intercalate " " ["status", s.aliasName, "mode"])
        = (0, "paused")
      → playsoundWin.resume env fuel ctr s true = (s', some (.ok (c, n)))
      → s'.pauseAudioAttr = some false
        ∧ playsoundWin.pause env2 ctr2 s'
            = ({ s' with pause_sound := true },
              .error (.typeError "bool object is not callable"))) := by
  constructor
  · intro h
    have ha := play_block_ok_rebinds env fuel ctr c n s s' sound none h
    exact ⟨ha, pause_raises_of_rebound env2 ctr2 s' ha⟩
  · intro hp h
    have ha := resume_block_ok_paused_rebinds env fuel ctr c n s s' hp h
    exact ⟨ha, pause_raises_of_rebound env2 ctr2 s' ha⟩

/-- Stub environment for the C9 witness: every submission succeeds and the
status poll reads `"stopped"`. -/
def envC9 : WinEnv :=
  { submit := fun _ _ => (0, "stopped"), errString := fun _ => "" }

/-- The state a blocking `play` on instance 3 leaves behind in the C9
witness run. -/
def winStateC9 : WinState :=
  { aliasName := "playsound_alias_3"
    stop_sound := false
    pause_sound := false
    pauseAudioAttr := some false }

/-- The state the subsequent failing `pause` leaves behind in the C9
witness run. -/
def winStateC9paused : WinState :=
  { aliasName := "playsound_alias_3"
    stop_sound := false
    pause_sound := true
    pauseAudioAttr := some false }

/-- C9 witness. -/
theorem pause_audio_rebound_witness :
    playsoundWin.play envC9 5 0 (playsoundWin.init 3) "song.mp3" none true
      = (winStateC9, some (.ok (4, 1)))
    ∧ (winStateC9.pauseAudioAttr = some false
      ∧ playsoundWin.pause envC9 0 winStateC9
        = (winStateC9paused,
          .error (.typeError "bool object is not callable"))) :=
  ⟨rfl,
    (pause_audio_rebound_amended envC9 envC9 5 0 0 4 1 (playsoundWin.init 3)
      winStateC9 "song.mp3").1 rfl⟩
